import Mathlib

/-!
Verification of the esgf-mapfiles DRS tree engine.

Shallow embedding of the per-file processing logic of the repository:
`src/esgprep/drs/main.py` (function `process`, function `run`),
`src/esgprep/drs/make.py` (method `Process.__call__`) and
`src/esgprep/drs/constants.py`.

Python values are embedded as follows: strings as `String`, integers and
sizes as `Nat`, `None`-able values as `Option`, dictionaries as
association lists, exceptions as explicit result constructors. All
definitions are executable.
-/

set_option maxRecDepth 4096

/-! ## Version check (claim C1)

`main.py` line 66 raises `OlderUpgrade` when
`int(DRSPath.TREE_VERSION[1:]) <= int(fph.v_latest[1:])`.
`make.py` line 152 raises `OlderUpgrade` when
`latest_version < current_version` (Python string comparison of the
version strings returned by `get_version`). -/

/-- `int(s[1:])` for a version string such as "v20200101": the integer
value of the digits after the leading character. -/
def digitsAfterV (s : String) : Nat :=
  (s.toList.drop 1).foldl (fun n c => n * 10 + (c.toNat - 48)) 0

/-- Python string comparison `a < b`: lexicographic on code points. -/
def pyCharsLt : List Char → List Char → Bool
  | [], [] => false
  | [], _ :: _ => true
  | _ :: _, [] => false
  | c :: cs, d :: ds =>
    if c.toNat < d.toNat then true
    else if d.toNat < c.toNat then false
    else pyCharsLt cs ds

/-- Python string comparison `a < b` on `String`. -/
def pyStrLt (a b : String) : Bool :=
  pyCharsLt a.toList b.toList

/-- main.py line 66: the condition under which `OlderUpgrade` is raised,
`int(TREE_VERSION[1:]) <= int(v_latest[1:])`, where the first argument is
the upgrade (newly resolved) version and the second the existing latest. -/
def olderUpgradeRaisedMain (treeVersion vLatest : String) : Bool :=
  decide (digitsAfterV treeVersion ≤ digitsAfterV vLatest)

/-- make.py line 152: the condition under which `OlderUpgrade` is raised,
`latest_version < current_version` (Python string `<` on the version
strings). -/
def olderUpgradeRaisedMake (currentVersion latestVersion : String) : Bool :=
  pyStrLt latestVersion currentVersion

/-! ## Duplicate decision (claims C2, C9)

The decision run for one incoming file against the latest version's file
of the same name, in both implementations: make.py lines 146-181 (after
the version-ordering check of line 152, which claim C1 treats
separately) and main.py lines 78-86 (inside the line-64 latest-version
branch). Python `==` is structural equality; a `None` tracking id is
falsy in the `current_tracking_id and latest_tracking_id` guards of
make.py. -/

/-- Metadata of one file as consulted by the duplicate decision of
make.py: tracking id (`get_tracking_id`, `None` when absent), size
(`stat().st_size`) and content digest (`get_checksum`). -/
structure FileMeta where
  trackingId : Option String
  size : Nat
  checksum : String
deriving DecidableEq, Repr

/-- Outcome of the duplicate decision of make.py lines 146-181 for one
file: not a duplicate, a duplicate (`is_duplicate = True`), or the
`UnchangedTrackingID` exception. -/
inductive DupDecision
  | notDuplicate
  | duplicate
  | unchangedTrackingID
deriving DecidableEq, Repr

/-- make.py lines 146-181 (with the line-152 version check factored out
into `olderUpgradeRaisedMake`): `latestExists` is the test
`latest_path and latest_path.exists()` of line 147; then line 161 compares
tracking ids, line 164 tests `st_size` equality `and not self.no_checksum`,
line 169 compares checksums, and the two `elif current_tracking_id and
latest_tracking_id` guards of lines 175 and 180 raise
`UnchangedTrackingID`. -/
def duplicateDecision (latestExists : Bool) (noChecksum : Bool)
    (current latest : FileMeta) : DupDecision :=
  if latestExists then
    if current.trackingId = latest.trackingId then
      if current.size = latest.size ∧ noChecksum = false then
        if current.checksum = latest.checksum then
          .duplicate
        else if current.trackingId.isSome && latest.trackingId.isSome then
          .unchangedTrackingID
        else
          .notDuplicate
      else if current.trackingId.isSome && latest.trackingId.isSome then
        .unchangedTrackingID
      else
        .notDuplicate
    else
      .notDuplicate
  else
    .notDuplicate

/-- main.py lines 79-86: the duplicate decision of the older
implementation. `latestFileExists` is the `os.path.exists(latest_file)`
test of line 81; the file is flagged duplicate exactly when the two
digests computed at lines 82-83 are equal (`checksum` comes from
esgprep.utils.misc, not under src/, and is represented by the two
files' digest fields). Tracking ids and sizes are never consulted, and
the block runs whether or not `no_checksum` is set: the line-69 guard
covers only the dataset hash-cache walk of lines 70-77, so the
`noChecksum` argument is ignored. -/
def duplicateDecisionMain (latestFileExists noChecksum : Bool)
    (current latest : FileMeta) : DupDecision :=
  if latestFileExists then
    if latest.checksum = current.checksum then
      .duplicate
    else
      .notDuplicate
  else
    .notDuplicate

/-- C1: the claim says OlderUpgrade is raised exactly when the newly
resolved version is less than or equal to the existing latest (integer
comparison of the digits after the leading v) and processing passes the
check when it is strictly greater. main.py line 66 satisfies this at the
spec's own example versions and at equality; make.py line 152 inverts the
comparison: it raises on the strictly-greater (success) case
v20200102 over latest v20200101 and passes the older and the equal cases. -/
theorem olderUpgrade_check_main_vs_make :
    olderUpgradeRaisedMain "v20200102" "v20200101" = false ∧
    olderUpgradeRaisedMain "v20200101" "v20200102" = true ∧
    olderUpgradeRaisedMain "v20200101" "v20200101" = true ∧
    olderUpgradeRaisedMake "v20200102" "v20200101" = true ∧
    olderUpgradeRaisedMake "v20200101" "v20200102" = false ∧
    olderUpgradeRaisedMake "v20200101" "v20200101" = false := by
  decide

/-- C2 counterexample: the literal table is false of the cited main.py
lines 78-86. At a latest file with the same present tracking id, the same
size and a different digest the table mandates `UnchangedTrackingID`, but
main.py classifies the file as not duplicate (first conjunct); at
different tracking ids with an equal digest the table mandates not
duplicate, but main.py classifies it as duplicate (second conjunct) —
main.py never consults tracking ids and never raises
`UnchangedTrackingID`. -/
theorem duplicate_table_fails_main :
    duplicateDecisionMain true false ⟨some "t1", 7, "abc"⟩
      ⟨some "t1", 7, "xyz"⟩ = DupDecision.notDuplicate ∧
    duplicateDecisionMain true false ⟨some "t1", 7, "abc"⟩
      ⟨some "t2", 7, "abc"⟩ = DupDecision.duplicate := by
  decide

/-- C2 (amended): the duplicate decision of make.py lines 146-181
satisfies the literal table with checksumming enabled (`noChecksum =
false`, as presupposed by the digest rows): latest file absent means not
duplicate; latest present with the same tracking id, same size and same
digest means duplicate; same tracking id (present on both sides), same
size and a different digest raises `UnchangedTrackingID`; different
tracking ids mean not duplicate regardless of size or digest. The
decision of main.py lines 78-86 instead classifies by digest equality
alone: latest file absent means not duplicate, an equal digest means
duplicate and a different digest means not duplicate regardless of
tracking ids and sizes, and `UnchangedTrackingID` is never raised. -/
theorem duplicate_decision_table (nc : Bool) (cur lat : FileMeta) :
    duplicateDecision false nc cur lat = DupDecision.notDuplicate ∧
    (cur.trackingId = lat.trackingId → cur.size = lat.size →
      cur.checksum = lat.checksum →
      duplicateDecision true false cur lat = DupDecision.duplicate) ∧
    (∀ t, cur.trackingId = some t → lat.trackingId = some t →
      cur.size = lat.size → cur.checksum ≠ lat.checksum →
      duplicateDecision true false cur lat = DupDecision.unchangedTrackingID) ∧
    (cur.trackingId ≠ lat.trackingId →
      duplicateDecision true nc cur lat = DupDecision.notDuplicate) ∧
    duplicateDecisionMain false nc cur lat = DupDecision.notDuplicate ∧
    (lat.checksum = cur.checksum →
      duplicateDecisionMain true nc cur lat = DupDecision.duplicate) ∧
    (lat.checksum ≠ cur.checksum →
      duplicateDecisionMain true nc cur lat = DupDecision.notDuplicate) ∧
    duplicateDecisionMain true nc cur lat ≠
      DupDecision.unchangedTrackingID := by
  refine ⟨rfl, ?_, ?_, ?_, rfl, ?_, ?_, ?_⟩
  · intro hid hsz hck
    simp [duplicateDecision, hid, hsz, hck]
  · intro t hc hl hsz hck
    simp [duplicateDecision, hc, hl, hsz, hck]
  · intro hid
    simp [duplicateDecision, hid]
  · intro hck
    simp [duplicateDecisionMain, hck]
  · intro hck
    simp [duplicateDecisionMain, hck]
  · by_cases hck : lat.checksum = cur.checksum <;>
      simp [duplicateDecisionMain, hck]

/-- C2 witness: the table rows of make.py and the digest-only rule of
main.py evaluated at concrete file metadata. -/
theorem duplicate_decision_table_witness :
    duplicateDecision true false ⟨some "t1", 7, "abc"⟩ ⟨some "t1", 7, "abc"⟩ =
      DupDecision.duplicate ∧
    duplicateDecision true false ⟨some "t1", 7, "abc"⟩ ⟨some "t1", 7, "xyz"⟩ =
      DupDecision.unchangedTrackingID ∧
    duplicateDecision true false ⟨some "t1", 7, "abc"⟩ ⟨some "t2", 7, "abc"⟩ =
      DupDecision.notDuplicate ∧
    duplicateDecision false false ⟨some "t1", 7, "abc"⟩ ⟨some "t1", 7, "abc"⟩ =
      DupDecision.notDuplicate ∧
    duplicateDecisionMain true false ⟨some "t1", 7, "abc"⟩
      ⟨some "t2", 9, "abc"⟩ = DupDecision.duplicate ∧
    duplicateDecisionMain true false ⟨some "t1", 7, "abc"⟩
      ⟨some "t1", 7, "xyz"⟩ = DupDecision.notDuplicate := by
  refine ⟨?_, ?_, ?_, ?_, ?_, ?_⟩
  · exact (duplicate_decision_table false ⟨some "t1", 7, "abc"⟩
      ⟨some "t1", 7, "abc"⟩).2.1 rfl rfl rfl
  · exact (duplicate_decision_table false ⟨some "t1", 7, "abc"⟩
      ⟨some "t1", 7, "xyz"⟩).2.2.1 "t1" rfl rfl rfl (by decide)
  · exact (duplicate_decision_table false ⟨some "t1", 7, "abc"⟩
      ⟨some "t2", 7, "abc"⟩).2.2.2.1 (by decide)
  · exact (duplicate_decision_table false ⟨some "t1", 7, "abc"⟩
      ⟨some "t1", 7, "abc"⟩).1
  · exact (duplicate_decision_table false ⟨some "t1", 7, "abc"⟩
      ⟨some "t2", 9, "abc"⟩).2.2.2.2.2.1 rfl
  · exact (duplicate_decision_table false ⟨some "t1", 7, "abc"⟩
      ⟨some "t1", 7, "xyz"⟩).2.2.2.2.2.2.1 (by decide)

/-- C9 counterexample: with checksumming disabled (`no_checksum = True`)
the claim fails in both cited implementations. In make.py lines 163-181
an equal-sized same-named file carrying the same present tracking id is
NOT treated as non-duplicate: the guard of line 164 (`size equal and not
no_checksum`) fails, so control reaches the line-180 `elif
current_tracking_id and latest_tracking_id` branch and
`UnchangedTrackingID` is raised — even when the contents are identical.
In main.py the checksum comparison step is NOT skipped (the line-69
guard covers only the hash-cache walk of lines 70-77) and the same
equal-sized file is classified as a duplicate by lines 79-86. -/
theorem no_checksum_equal_size_raises :
    duplicateDecision true true ⟨some "t1", 7, "abc"⟩ ⟨some "t1", 7, "abc"⟩ =
      DupDecision.unchangedTrackingID ∧
    duplicateDecisionMain true true ⟨some "t1", 7, "abc"⟩
      ⟨some "t1", 7, "abc"⟩ = DupDecision.duplicate := by
  decide

/-- C9 (amended): with checksumming disabled, the make.py decision never
yields duplicate and its checksum comparison is skipped; an equal-sized
file of the same name is treated as non-duplicate exactly unless both
sides carry a tracking id and the ids are equal, in which case
`UnchangedTrackingID` is raised. The main.py decision is unaffected by
`no_checksum` (the flag guards only the dataset hash cache): the digest
comparison still runs and an equal digest still classifies the file as a
duplicate. -/
theorem no_checksum_never_duplicate (le : Bool) (cur lat : FileMeta) :
    duplicateDecision le true cur lat ≠ DupDecision.duplicate ∧
    (cur.trackingId = none ∨ lat.trackingId = none ∨
        cur.trackingId ≠ lat.trackingId →
      duplicateDecision le true cur lat = DupDecision.notDuplicate) ∧
    (∀ t, cur.trackingId = some t → lat.trackingId = some t → le = true →
      duplicateDecision le true cur lat = DupDecision.unchangedTrackingID) ∧
    duplicateDecisionMain le true cur lat =
      duplicateDecisionMain le false cur lat ∧
    (lat.checksum = cur.checksum →
      duplicateDecisionMain true true cur lat = DupDecision.duplicate) := by
  refine ⟨?_, ?_, ?_, rfl, ?_⟩
  · cases le with
    | false => simp [duplicateDecision]
    | true =>
      by_cases hid : cur.trackingId = lat.trackingId
      · simp [duplicateDecision, hid]
        cases h : lat.trackingId.isSome <;> simp [h]
      · simp [duplicateDecision, hid]
  · intro h
    cases le with
    | false => simp [duplicateDecision]
    | true =>
      by_cases hid : cur.trackingId = lat.trackingId
      · rcases h with h | h | h
        · simp [duplicateDecision, hid, h, hid ▸ h]
        · simp [duplicateDecision, hid, h]
        · exact absurd hid h
      · simp [duplicateDecision, hid]
  · intro t hc hl hle
    subst hle
    simp [duplicateDecision, hc, hl]
  · intro hck
    simp [duplicateDecisionMain, hck]

/-- C9 witness: the amended statement evaluated at concrete metadata:
under make.py, no tracking ids and equal sizes give non-duplicate while
present equal tracking ids give `UnchangedTrackingID`; under main.py an
equal digest still gives duplicate despite `no_checksum`. -/
theorem no_checksum_never_duplicate_witness :
    duplicateDecision true true ⟨none, 7, "abc"⟩ ⟨none, 7, "abc"⟩ =
      DupDecision.notDuplicate ∧
    duplicateDecision true true ⟨some "t1", 7, "abc"⟩ ⟨some "t1", 7, "xyz"⟩ =
      DupDecision.unchangedTrackingID ∧
    duplicateDecisionMain true true ⟨some "t1", 7, "abc"⟩
      ⟨some "t2", 9, "abc"⟩ = DupDecision.duplicate := by
  refine ⟨?_, ?_, ?_⟩
  · exact (no_checksum_never_duplicate true ⟨none, 7, "abc"⟩
      ⟨none, 7, "abc"⟩).2.1 (Or.inl rfl)
  · exact (no_checksum_never_duplicate true ⟨some "t1", 7, "abc"⟩
      ⟨some "t1", 7, "xyz"⟩).2.2.1 "t1" rfl rfl rfl
  · exact (no_checksum_never_duplicate true ⟨some "t1", 7, "abc"⟩
      ⟨some "t2", 9, "abc"⟩).2.2.2.2 rfl

/-! ## Leaf queueing (claims C3, C4, C5)

main.py lines 88-158 and make.py lines 187-255 queue planned link
operations ("leaves") into the shared tree. The outputs of the DRSPath
handler (module `handler`, not under src/) and of the path helpers of
`esgprep._utils.path` (not under src/) are taken as parameters. -/

/-- `os.path.join(*parts)` for relative parts: joined with a slash. -/
def pathJoin (parts : List String) : String :=
  String.intercalate "/" parts

/-- One leaf as queued by main.py `tree.create_leaf`: node path, leaf
name, display label, link source, link mode and the optional `origin`
keyword. -/
structure MainLeaf where
  nodes : List String
  leaf : String
  label : String
  src : String
  mode : String
  origin : Option String
deriving DecidableEq, Repr

/-- Modelled from the spec: the outputs of the `DRSPath` handler (module
`handler`, imported by main.py but not under src/), taken as opaque
parameters exactly as main.py lines 88-110 consumes them, together with
the file handler fields `filename` and `ffp` and the run's link mode. -/
structure DRSPathParams where
  itemsNoDset : List String
  itemsNoDsetFileFolder : List String
  itemsRoot : List String
  itemsNoFileNoVersionRoot : List String
  itemsFileFolderRoot : List String
  vUpgrade : String
  filename : String
  ffp : String
  mode : String
deriving DecidableEq, Repr

/-- main.py lines 88-110, the non-duplicate branch: the three leaves
queued for one processed file, in program order. The relative source of
the first leaf is built at lines 90-92 as
`[..] * len(items(d_part=False)) + items(d_part=False, file_folder=True)
+ [filename]`; `LINK_SEPARATOR` is the string of constants.py line 17. -/
def processLeavesMain (p : DRSPathParams) : List MainLeaf :=
  let src := List.replicate p.itemsNoDset.length ".." ++
    p.itemsNoDsetFileFolder ++ [p.filename]
  [ { nodes := p.itemsRoot
      leaf := p.filename
      label := p.filename ++ " --> " ++ pathJoin src
      src := pathJoin src
      mode := "symlink"
      origin := some p.ffp },
    { nodes := p.itemsNoFileNoVersionRoot
      leaf := "latest"
      label := "latest" ++ " --> " ++ p.vUpgrade
      src := p.vUpgrade
      mode := "symlink"
      origin := none },
    { nodes := p.itemsFileFolderRoot
      leaf := p.filename
      label := p.filename
      src := p.ffp
      mode := p.mode
      origin := none } ]

/-- One leaf as queued by make.py `tree.create_leaf`: node path (the leaf
name is the last node), display label, link source, link mode and the
force flag. -/
structure MakeLeaf where
  nodes : List String
  label : String
  src : String
  mode : String
  force : Bool
deriving DecidableEq, Repr

/-- Modelled from the spec: the outputs of the path helpers of
`esgprep._utils.path` (not under src/) for one current file, taken as
opaque parameters exactly as make.py lines 187-211 consumes them.
`currentPathParts` is `current_path.parts` where
`current_path = Path(root, drs_path(...), source.name)` (make.py line
135), the file's destination inside the tree; `sourcePath` is the
incoming file `source`. -/
structure MakeLeafParams where
  currentPathParts : List String
  currentName : String
  drsDownParts : List String
  drsDownFileFolderParts : List String
  datasetParentParts : List String
  fileFolderParts : List String
  drsVersion : String
  mode : String
  sourcePath : String
deriving DecidableEq, Repr

/-- make.py lines 187-211, the non-duplicate branch: the three leaves
queued for one processed file, in program order. Note line 210 passes
`src=current_path` (the destination path) to the files-folder leaf. -/
def processLeavesMake (p : MakeLeafParams) : List MakeLeaf :=
  let src := List.replicate p.drsDownParts.length ".." ++
    ["files"] ++ p.drsDownFileFolderParts
  [ { nodes := p.currentPathParts
      label := p.currentName ++ " --> " ++ pathJoin src
      src := pathJoin src
      mode := "symlink"
      force := true },
    { nodes := p.datasetParentParts ++ ["latest"]
      label := "latest" ++ " --> " ++ p.drsVersion
      src := p.drsVersion
      mode := "symlink"
      force := false },
    { nodes := p.fileFolderParts
      label := p.currentName
      src := pathJoin p.currentPathParts
      mode := p.mode
      force := false } ]

/-- Concrete inputs for make.py lines 187-211: an incoming file
/incoming/a.nc whose destination in the tree is
data/proj/dset/v20200102/a.nc. -/
def makeLeafExample : MakeLeafParams :=
  { currentPathParts := ["data", "proj", "dset", "v20200102", "a.nc"]
    currentName := "a.nc"
    drsDownParts := ["dset", "v20200102", "a.nc"]
    drsDownFileFolderParts := ["dset", "files", "d20200102", "a.nc"]
    datasetParentParts := ["data", "proj"]
    fileFolderParts := ["data", "proj", "dset", "files", "d20200102", "a.nc"]
    drsVersion := "v20200102"
    mode := "move"
    sourcePath := "/incoming/a.nc" }

/-- C3: for a non-duplicate file main.py lines 88-110 queue exactly three
leaves in order: (a) a symlink in the version folder whose source is the
relative path (leading-dot-dot segments) into the shared files folder;
(b) a latest symlink at the dataset level whose source is the upgrade
version folder name; (c) the file leaf in the files folder whose mode is
the run's configured link mode and whose source is the original incoming
path `fh.ffp`. The final conjuncts show the divergence of make.py line
210 at concrete inputs: its third (files-folder) leaf carries
`src = current_path`, the destination inside the tree, which differs from
the incoming source path. -/
theorem three_leaves_per_file (p : DRSPathParams)
    (h : 0 < p.itemsNoDset.length) :
    (processLeavesMain p).length = 3 ∧
    processLeavesMain p =
      [ { nodes := p.itemsRoot
          leaf := p.filename
          label := p.filename ++ " --> " ++ pathJoin (List.replicate
            p.itemsNoDset.length ".." ++ p.itemsNoDsetFileFolder ++
            [p.filename])
          src := pathJoin (List.replicate p.itemsNoDset.length ".." ++
            p.itemsNoDsetFileFolder ++ [p.filename])
          mode := "symlink"
          origin := some p.ffp },
        { nodes := p.itemsNoFileNoVersionRoot
          leaf := "latest"
          label := "latest" ++ " --> " ++ p.vUpgrade
          src := p.vUpgrade
          mode := "symlink"
          origin := none },
        { nodes := p.itemsFileFolderRoot
          leaf := p.filename
          label := p.filename
          src := p.ffp
          mode := p.mode
          origin := none } ] ∧
    (∃ l rest tailParts, processLeavesMain p = l :: rest ∧
      l.src = pathJoin (".." :: tailParts)) ∧
    (processLeavesMake makeLeafExample).length = 3 ∧
    (processLeavesMake makeLeafExample).getLast? =
      some { nodes := makeLeafExample.fileFolderParts
             label := "a.nc"
             src := "data/proj/dset/v20200102/a.nc"
             mode := "move"
             force := false } ∧
    "data/proj/dset/v20200102/a.nc" ≠ makeLeafExample.sourcePath := by
  refine ⟨rfl, rfl, ?_, ?_, ?_, ?_⟩
  · cases hnd : p.itemsNoDset with
    | nil => rw [hnd] at h; simp at h
    | cons a as =>
      refine ⟨_, _, List.replicate as.length ".." ++
        p.itemsNoDsetFileFolder ++ [p.filename], rfl, ?_⟩
      simp [processLeavesMain, hnd, List.replicate_succ]
  · decide
  · decide
  · decide

/-- C3 witness: the theorem instantiated at a concrete DRS path. -/
theorem three_leaves_per_file_witness :
    (processLeavesMain
      { itemsNoDset := ["v20200102", "a.nc"]
        itemsNoDsetFileFolder := ["files", "d20200102"]
        itemsRoot := ["data", "proj", "dset", "v20200102", "a.nc"]
        itemsNoFileNoVersionRoot := ["data", "proj", "dset"]
        itemsFileFolderRoot := ["data", "proj", "dset", "files", "d20200102"]
        vUpgrade := "v20200102"
        filename := "a.nc"
        ffp := "/incoming/a.nc"
        mode := "move" }).length = 3 :=
  (three_leaves_per_file
    { itemsNoDset := ["v20200102", "a.nc"]
      itemsNoDsetFileFolder := ["files", "d20200102"]
      itemsRoot := ["data", "proj", "dset", "v20200102", "a.nc"]
      itemsNoFileNoVersionRoot := ["data", "proj", "dset"]
      itemsFileFolderRoot := ["data", "proj", "dset", "files", "d20200102"]
      vUpgrade := "v20200102"
      filename := "a.nc"
      ffp := "/incoming/a.nc"
      mode := "move" } (by decide)).1

/-- Outcome of the duplicate branch: either the `DuplicatedFile`
exception, or the leaves queued together with the paths appended to
`tree.duplicates`. -/
inductive DupBranchResult
  | raisedDuplicatedFile (latestFile source : String)
  | queued (leaves : List MainLeaf) (duplicatesAppended : List String)
deriving DecidableEq, Repr

/-- main.py lines 127-148 (identically make.py lines 236-255): the branch
taken for a file flagged as duplicate. With `upgrade_from_latest`,
`DuplicatedFile(latest_file, ffp)` is raised before any leaf is queued;
otherwise one symlink leaf is queued whose source is
`os.readlink(latest_file)` (passed as `readlinkLatest`), and the incoming
path is appended to `tree.duplicates` exactly when the run's link mode is
the string move. -/
def duplicateBranch (upgradeFromLatest : Bool) (mode : String)
    (nodes : List String) (filename latestFile readlinkLatest ffp : String) :
    DupBranchResult :=
  if upgradeFromLatest then
    .raisedDuplicatedFile latestFile ffp
  else
    .queued
      [ { nodes := nodes
          leaf := filename
          label := filename ++ " --> " ++ readlinkLatest
          src := readlinkLatest
          mode := "symlink"
          origin := some ffp } ]
      (if mode = "move" then [ffp] else [])

/-- C4: for a file detected as duplicate, with `upgrade_from_latest`
active `DuplicatedFile(latest_file, source)` is raised and no leaf is
queued; otherwise exactly one symlink leaf pointing at the existing
target (the readlink of the latest file) is queued, and the incoming path
is appended to `tree.duplicates` exactly when the link mode is move
(under any other mode nothing is appended). -/
theorem duplicate_branch_behavior (mode : String) (nodes : List String)
    (filename latestFile readlinkLatest ffp : String) :
    duplicateBranch true mode nodes filename latestFile readlinkLatest ffp =
      DupBranchResult.raisedDuplicatedFile latestFile ffp ∧
    duplicateBranch false "move" nodes filename latestFile readlinkLatest ffp =
      DupBranchResult.queued
        [ { nodes := nodes
            leaf := filename
            label := filename ++ " --> " ++ readlinkLatest
            src := readlinkLatest
            mode := "symlink"
            origin := some ffp } ] [ffp] ∧
    (mode ≠ "move" →
      duplicateBranch false mode nodes filename latestFile readlinkLatest ffp =
        DupBranchResult.queued
          [ { nodes := nodes
              leaf := filename
              label := filename ++ " --> " ++ readlinkLatest
              src := readlinkLatest
              mode := "symlink"
              origin := some ffp } ] []) := by
  refine ⟨rfl, rfl, ?_⟩
  intro hm
  simp [duplicateBranch, hm]

/-- C4 witness: the duplicate branch evaluated under link mode copy. -/
theorem duplicate_branch_behavior_witness :
    duplicateBranch false "copy" ["data", "dset", "v2"] "a.nc"
        "/data/dset/v1/a.nc" "../files/d1/a.nc" "/incoming/a.nc" =
      DupBranchResult.queued
        [ { nodes := ["data", "dset", "v2"]
            leaf := "a.nc"
            label := "a.nc" ++ " --> " ++ "../files/d1/a.nc"
            src := "../files/d1/a.nc"
            mode := "symlink"
            origin := some "/incoming/a.nc" } ] [] :=
  (duplicate_branch_behavior "copy" ["data", "dset", "v2"] "a.nc"
    "/data/dset/v1/a.nc" "../files/d1/a.nc" "/incoming/a.nc").2.2
    (by decide)

/-! ## Upgrade-from-latest copy-forward (claim C5) -/

/-- One file found while walking the latest version directory of a
dataset: its name, the target its symlink carries (`os.readlink`) and its
resolved real path (`os.path.realpath`). -/
structure LatestFile where
  name : String
  linkTarget : String
  realTarget : String
deriving DecidableEq, Repr

/-- main.py lines 114-126: with `upgrade_from_latest`, every file found
under the latest dataset version whose name differs from the processed
file's and is not in `ignore_from_latest` is queued as a symlink leaf
into the upgrade version folder, with source `os.readlink` of the latest
file and origin its realpath. -/
def upgradeFromLatestLeaves (itemsRoot : List String)
    (currentFilename : String) (ignoreFromLatest : List String)
    (latestFiles : List LatestFile) : List MainLeaf :=
  latestFiles.filterMap (fun f =>
    if f.name ≠ currentFilename ∧ ¬ f.name ∈ ignoreFromLatest then
      some { nodes := itemsRoot
             leaf := f.name
             label := f.name ++ " --> " ++ f.linkTarget
             src := f.linkTarget
             mode := "symlink"
             origin := some f.realTarget }
    else none)

/-- C5: in main.py lines 114-126 every latest-version file whose name
differs from the processed file's and is not ignored yields a symlink
leaf in the new version folder preserving its existing link target, and
conversely every queued leaf is such a symlink whose source is the
readlink of one qualifying latest-version file. -/
theorem upgrade_from_latest_leaves_spec (itemsRoot : List String)
    (cur : String) (ign : List String) (lfs : List LatestFile) :
    (∀ f ∈ lfs, f.name ≠ cur → ¬ f.name ∈ ign →
      ({ nodes := itemsRoot
         leaf := f.name
         label := f.name ++ " --> " ++ f.linkTarget
         src := f.linkTarget
         mode := "symlink"
         origin := some f.realTarget } : MainLeaf) ∈
        upgradeFromLatestLeaves itemsRoot cur ign lfs) ∧
    (∀ l ∈ upgradeFromLatestLeaves itemsRoot cur ign lfs,
      l.mode = "symlink" ∧ ∃ f ∈ lfs, f.name ≠ cur ∧ ¬ f.name ∈ ign ∧
        l.leaf = f.name ∧ l.src = f.linkTarget ∧
        l.origin = some f.realTarget) := by
  constructor
  · intro f hf hne hni
    simp [upgradeFromLatestLeaves, List.mem_filterMap]
    exact ⟨f, hf, by simp [hne, hni]⟩
  · intro l hl
    simp [upgradeFromLatestLeaves, List.mem_filterMap] at hl
    obtain ⟨f, hf, ⟨hne, hni⟩, hleq⟩ := hl
    cases hleq
    exact ⟨rfl, f, hf, hne, hni, rfl, rfl, rfl⟩

/-- C5 witness: a latest version holding b.nc and c.nc while a.nc is
processed with c.nc ignored: b.nc is copied forward with its link
target. -/
theorem upgrade_from_latest_leaves_witness :
    ({ nodes := ["data", "dset", "v2"]
       leaf := "b.nc"
       label := "b.nc" ++ " --> " ++ "../files/d1/b.nc"
       src := "../files/d1/b.nc"
       mode := "symlink"
       origin := some "/data/dset/files/d1/b.nc" } : MainLeaf) ∈
      upgradeFromLatestLeaves ["data", "dset", "v2"] "a.nc" ["c.nc"]
        [⟨"b.nc", "../files/d1/b.nc", "/data/dset/files/d1/b.nc"⟩,
         ⟨"c.nc", "../files/d1/c.nc", "/data/dset/files/d1/c.nc"⟩] :=
  (upgrade_from_latest_leaves_spec ["data", "dset", "v2"] "a.nc" ["c.nc"]
    [⟨"b.nc", "../files/d1/b.nc", "/data/dset/files/d1/b.nc"⟩,
     ⟨"c.nc", "../files/d1/c.nc", "/data/dset/files/d1/c.nc"⟩]).1
    ⟨"b.nc", "../files/d1/b.nc", "/data/dset/files/d1/b.nc"⟩
    (by simp) (by decide) (by decide)

/-! ## Worker boundary (claim C6)

main.py lines 41 and 161-168 and make.py lines 53 and 278-324 wrap the
whole per-file body in try/except: `except KeyboardInterrupt: raise`,
`except Exception: ... return None`, `finally:` progress update. -/

/-- A Python exception as discriminated by the worker boundary: either
`KeyboardInterrupt` (a cancellation) or any other exception with its
class name and message. -/
inductive PyExc
  | keyboardInterrupt
  | otherExc (name msg : String)
deriving DecidableEq, Repr

/-- What leaves the worker boundary: the returned value (`Except.error`
when an exception escapes), the increment applied to the shared error
counter, and the increment applied to the shared progress counter
(make.py lines 278-324). -/
structure WorkerOutcome where
  result : Except PyExc (Option Bool)
  errorsDelta : Nat
  progressDelta : Nat

/-- The worker boundary of make.py `Process.__call__` (lines 278-324;
main.py lines 161-168 is the same discrimination without the counters):
the per-file body either returns a value (True for success, False for an
ignored file) or raises. `KeyboardInterrupt` is re-raised;
any other exception is converted into a `None` return; the `finally`
block always bumps the progress counter. -/
def workerBoundary (body : Except PyExc Bool) : WorkerOutcome :=
  match body with
  | .ok b => { result := .ok (some b), errorsDelta := 0, progressDelta := 1 }
  | .error .keyboardInterrupt =>
    { result := .error .keyboardInterrupt, errorsDelta := 1,
      progressDelta := 1 }
  | .error (.otherExc _ _) =>
    { result := .ok none, errorsDelta := 1, progressDelta := 1 }

/-- C6: any exception other than the cancellation is caught at the worker
boundary and converted into an error result (a `None` return), so it
never escapes the worker; the cancellation (`KeyboardInterrupt`) is
re-raised and escapes; a normal return passes through. -/
theorem worker_boundary_policy :
    (∀ name msg, workerBoundary (Except.error (PyExc.otherExc name msg)) =
      { result := Except.ok none, errorsDelta := 1, progressDelta := 1 }) ∧
    workerBoundary (Except.error PyExc.keyboardInterrupt) =
      { result := Except.error PyExc.keyboardInterrupt, errorsDelta := 1,
        progressDelta := 1 } ∧
    (∀ b, workerBoundary (Except.ok b) =
      { result := Except.ok (some b), errorsDelta := 0,
        progressDelta := 1 }) ∧
    (∀ body e, (workerBoundary body).result = Except.error e →
      body = Except.error PyExc.keyboardInterrupt ∧
      e = PyExc.keyboardInterrupt) := by
  refine ⟨fun _ _ => rfl, rfl, fun _ => rfl, ?_⟩
  intro body e h
  match body with
  | .ok b => cases h
  | .error .keyboardInterrupt => cases h; exact ⟨rfl, rfl⟩
  | .error (.otherExc n m) => cases h

/-- C6 witness: a failing body with a ValueError is converted into a
`None` result, and the only body whose boundary result is an escaping
error is the cancelling one. -/
theorem worker_boundary_policy_witness :
    (workerBoundary (Except.error (PyExc.otherExc "ValueError" "boom"))
      ).result = Except.ok none ∧
    ((Except.error PyExc.keyboardInterrupt : Except PyExc Bool) =
      Except.error PyExc.keyboardInterrupt ∧
     PyExc.keyboardInterrupt = PyExc.keyboardInterrupt) := by
  constructor
  · exact congrArg WorkerOutcome.result
      (worker_boundary_policy.1 "ValueError" "boom")
  · exact worker_boundary_policy.2.2.2
      (Except.error PyExc.keyboardInterrupt) PyExc.keyboardInterrupt rfl

/-! ## Checkpoint store and run gating (claims C7, C8)

main.py function `run`, lines 197-252, and constants.py lines 31-44:
`CONTROLLED_ARGS` and `TREE_FILE`. The serializer `store`/`load` and the
gate `evaluate` come from `esgprep.utils.misc`, which is not under src/;
they are modelled from the spec below. -/

/-- An incoming-file record as appended to `tree.paths` by main.py lines
150-158. -/
structure IncomingRecord where
  src : String
  dst : String
  filename : String
  latest : String
  size : Nat
deriving DecidableEq, Repr

/-- The DRS tree of main.py as far as the checkpoint claims consult it:
the `paths` mapping, the `duplicates` list and the `commands_file`
attribute that line 217 overrides. -/
structure TreeMain where
  paths : List (String × List IncomingRecord)
  duplicates : List String
  commandsFile : String
deriving DecidableEq, Repr

/-- One Python object inside the pickled checkpoint stream: the
controlled-args snapshot (name-value pairs), the tree, the skip/error
log, or the per-file result list (each entry True, False or None). -/
inductive PyValue
  | argsSnapshot (a : List (String × String))
  | treeVal (t : TreeMain)
  | errLog (l : List String)
  | resList (r : List (Option Bool))
deriving DecidableEq, Repr

/-- constants.py lines 31-41: the fixed whitelist of run arguments
snapshotted into the checkpoint. -/
def controlledArgNames : List String :=
  ["directory", "set_values", "set_keys", "mode", "version", "root",
   "no_checksum", "checksums_from", "upgrade_from_latest",
   "ignore_from_latest", "ignore_from_incoming"]

/-- main.py line 240: the dictionary comprehension over `CONTROLLED_ARGS`
reading each argument off the processing context by name. -/
def controlledArgsSnapshot (ctx : String → String) :
    List (String × String) :=
  controlledArgNames.map (fun k => (k, ctx k))

/-- constants.py line 44: the checkpoint path, one fixed location per
invoking user. -/
def treeFile (user : String) : String :=
  "/tmp/DRSTree_" ++ user ++ ".pkl"

/-- main.py lines 240-243: the four-element checkpoint payload, in
program order. -/
def checkpointData (ctx : String → String) (t : TreeMain)
    (log : List String) (results : List (Option Bool)) : List PyValue :=
  [PyValue.argsSnapshot (controlledArgsSnapshot ctx), PyValue.treeVal t,
   PyValue.errLog log, PyValue.resList results]

/-- Modelled from the spec: `store` of `esgprep.utils.misc` (not under
src/) pickles the payload to the given path; the filesystem is a map
from path to stored payload. -/
def storeCheckpoint (fs : String → Option (List PyValue)) (path : String)
    (data : List PyValue) : String → Option (List PyValue) :=
  fun p => if p = path then some data else fs p

/-- Modelled from the spec: `load` of `esgprep.utils.misc` (not under
src/) reads back the pickled stream at the given path. -/
def loadCheckpoint (fs : String → Option (List PyValue)) (path : String) :
    Option (List PyValue) :=
  fs path

/-- Outcome of the scan branch of main.py `run` (lines 219-252): the
scan-file and scan-error counters, the filesystem after the checkpoint
write, whether the tree action was invoked, and the per-file result
list. -/
structure RunOutcome where
  scanFiles : Nat
  scanErrors : Nat
  fs : String → Option (List PyValue)
  actionRun : Bool
  results : List (Option Bool)

/-- main.py `run`, scan branch, lines 219-252: the per-file results are
the worker function mapped over the sources (lines 223 and 229-231),
`scan_files` is their count (line 236), `scan_errors` the count of `None`
entries (line 238), the checkpoint is stored unconditionally (line 240)
and the tree action runs only when `evaluate(results)` accepts
(lines 246-252). -/
def runScan (user : String) (ctx : String → String) (tree : TreeMain)
    (scanErrLog : List String) (sources : List String)
    (proc : String → Option Bool)
    (evaluateGate : List (Option Bool) → Bool)
    (fs0 : String → Option (List PyValue)) : RunOutcome :=
  let results := sources.map proc
  { scanFiles := results.length
    scanErrors := results.count none
    fs := storeCheckpoint fs0 (treeFile user)
      (checkpointData ctx tree scanErrLog results)
    actionRun := evaluateGate results
    results := results }

/-- main.py `run`, non-scan branch, lines 210-217: the checkpoint of the
invoking user is read back, its first element is discarded, the tree,
error log and result list are taken from the following three elements,
and `commands_file` is rolled back to the new invocation's value
(line 217). -/
def runNoScan (user : String) (newCommandsFile : String)
    (fs : String → Option (List PyValue)) :
    Option (TreeMain × List String × List (Option Bool)) :=
  match loadCheckpoint fs (treeFile user) with
  | some (_ :: PyValue.treeVal t :: PyValue.errLog l ::
      PyValue.resList r :: _) =>
    some ({ t with commandsFile := newCommandsFile }, l, r)
  | _ => none

/-- C7: after a scan the checkpoint at the invoking user's fixed path
holds exactly the four-element sequence (controlled-args snapshot, tree,
skip/error log, per-file result list) in that order, and a later
non-scanning invocation restores from it the same tree, error log and
results, overriding only the commands-file setting with the new
invocation's value. -/
theorem checkpoint_roundtrip (user newCf : String) (ctx : String → String)
    (tree : TreeMain) (log : List String) (sources : List String)
    (proc : String → Option Bool)
    (evaluateGate : List (Option Bool) → Bool)
    (fs0 : String → Option (List PyValue)) :
    (runScan user ctx tree log sources proc evaluateGate fs0).fs
        (treeFile user) =
      some [PyValue.argsSnapshot (controlledArgsSnapshot ctx),
            PyValue.treeVal tree, PyValue.errLog log,
            PyValue.resList (sources.map proc)] ∧
    runNoScan user newCf
        (runScan user ctx tree log sources proc evaluateGate fs0).fs =
      some ({ tree with commandsFile := newCf }, log, sources.map proc) := by
  constructor
  · simp [runScan, storeCheckpoint, checkpointData]
  · simp [runNoScan, loadCheckpoint, runScan, storeCheckpoint,
      checkpointData]

/-- The count of `None` entries in a result list is the length of its
`None` sublist. -/
theorem count_none_eq_length_filter (l : List (Option Bool)) :
    l.count none = (List.filter (fun r => r = none) l).length := by
  induction l with
  | nil => rfl
  | cons a l ih =>
    cases a with
    | none => simp [List.count_cons, List.filter_cons, ih]
    | some b => simp [List.count_cons, List.filter_cons, ih]

/-- C8: for every run the scan-file count is the length of the per-file
result list (one entry per source), the scan-error count is the number of
`None` entries in it, the checkpoint write is unconditional, the tree
action runs exactly when `evaluate(results)` accepts, and on a rejected
evaluation the checkpoint still exists while no action runs. -/
theorem scan_counts_and_action_gate (user : String) (ctx : String → String)
    (tree : TreeMain) (log : List String) (sources : List String)
    (proc : String → Option Bool)
    (evaluateGate : List (Option Bool) → Bool)
    (fs0 : String → Option (List PyValue)) :
    (runScan user ctx tree log sources proc evaluateGate fs0).scanFiles =
      List.length
        ((runScan user ctx tree log sources proc evaluateGate fs0).results) ∧
    (runScan user ctx tree log sources proc evaluateGate fs0).scanFiles =
      sources.length ∧
    (runScan user ctx tree log sources proc evaluateGate fs0).scanErrors =
      List.length (List.filter (fun r => r = none) (sources.map proc)) ∧
    ((runScan user ctx tree log sources proc evaluateGate fs0).fs
      (treeFile user)).isSome = true ∧
    ((runScan user ctx tree log sources proc evaluateGate fs0).actionRun =
        true ↔ evaluateGate (sources.map proc) = true) ∧
    (evaluateGate (sources.map proc) = false →
      ((runScan user ctx tree log sources proc evaluateGate fs0).fs
        (treeFile user)).isSome = true ∧
      (runScan user ctx tree log sources proc evaluateGate fs0).actionRun =
        false) := by
  refine ⟨rfl, by simp [runScan], ?_, ?_, Iff.rfl, ?_⟩
  · exact count_none_eq_length_filter (sources.map proc)
  · simp [runScan, storeCheckpoint]
  · intro hev
    exact ⟨by simp [runScan, storeCheckpoint], by simp [runScan, hev]⟩

/-- C8 witness: a run over two sources, one failing, with a rejecting
gate: two files scanned, one error, checkpoint present, no action. -/
theorem scan_counts_and_action_gate_witness :
    (runScan "esg" (fun _ => "x") ⟨[], [], ""⟩ [] ["f1", "f2"]
        (fun s => if s = "f1" then some true else none) (fun _ => false)
        (fun _ => none)).scanFiles = 2 ∧
    (runScan "esg" (fun _ => "x") ⟨[], [], ""⟩ [] ["f1", "f2"]
        (fun s => if s = "f1" then some true else none) (fun _ => false)
        (fun _ => none)).scanErrors = 1 ∧
    ((runScan "esg" (fun _ => "x") ⟨[], [], ""⟩ [] ["f1", "f2"]
        (fun s => if s = "f1" then some true else none) (fun _ => false)
        (fun _ => none)).fs (treeFile "esg")).isSome = true ∧
    (runScan "esg" (fun _ => "x") ⟨[], [], ""⟩ [] ["f1", "f2"]
        (fun s => if s = "f1" then some true else none) (fun _ => false)
        (fun _ => none)).actionRun = false := by
  have h := scan_counts_and_action_gate "esg" (fun _ => "x") ⟨[], [], ""⟩
    [] ["f1", "f2"] (fun s => if s = "f1" then some true else none)
    (fun _ => false) (fun _ => none)
  have hg := h.2.2.2.2.2 rfl
  refine ⟨h.2.1, ?_, hg.1, hg.2⟩
  rw [h.2.2.1]
  decide

/-! ## The paths mapping invariant (claim C10)

make.py lines 257-268: the record for the processed file is appended to
`self.tree.paths[key]['files']` FIRST (line 263) and only then does line
264 assert that the resolved latest version equals the stored one; a
failing assert raises `AssertionError`, which the worker boundary turns
into an error result, but the shared tree keeps the appended record. -/

/-- The record appended to the paths mapping by make.py lines 258-260. -/
structure MakeRecord where
  src : String
  dst : String
  isDuplicate : Bool
deriving DecidableEq, Repr

/-- The per-dataset entry of `tree.paths` in make.py: the list of file
records and the latest version observed when the entry was created. -/
structure DsetEntry where
  files : List MakeRecord
  latest : String
deriving DecidableEq, Repr

/-- Dictionary lookup on the association-list embedding of
`tree.paths`. -/
def lookupEntry : List (String × DsetEntry) → String → Option DsetEntry
  | [], _ => none
  | (k, v) :: rest, key => if k = key then some v else lookupEntry rest key

/-- Replacing the value stored under a key, leaving other keys alone. -/
def updateEntry : List (String × DsetEntry) → String → DsetEntry →
    List (String × DsetEntry)
  | [], _, _ => []
  | (k, v) :: rest, key, e =>
    if k = key then (k, e) :: rest else (k, v) :: updateEntry rest key e

/-- make.py lines 261-268: if the key exists the record is appended to
its file list and THEN the assert compares the resolved latest version
with the stored one (the Bool is the assert outcome; on `false` the
worker raises `AssertionError` but the append has already happened);
otherwise a fresh entry is created holding the record and the observed
latest version. -/
def recordEntry (paths : List (String × DsetEntry)) (key : String)
    (record : MakeRecord) (latestVersion : String) :
    List (String × DsetEntry) × Bool :=
  match lookupEntry paths key with
  | some e =>
    (updateEntry paths key { files := e.files ++ [record],
                             latest := e.latest },
     latestVersion = e.latest)
  | none => (paths ++ [(key, { files := [record],
                               latest := latestVersion })], true)

/-- Updating the key just looked up makes the new value visible. -/
theorem lookupEntry_updateEntry (paths : List (String × DsetEntry))
    (key : String) (e0 e : DsetEntry)
    (h : lookupEntry paths key = some e0) :
    lookupEntry (updateEntry paths key e) key = some e := by
  induction paths with
  | nil => simp [lookupEntry] at h
  | cons hd tl ih =>
    by_cases hk : hd.1 = key
    · simp [updateEntry, lookupEntry, hk]
    · simp [lookupEntry, hk] at h
      simp [updateEntry, lookupEntry, hk]
      exact ih h

/-- C10 counterexample: two files of one dataset disagreeing on the
latest version ARE both recorded under the key. Worker one records a file
having observed latest v20200101; worker two records a second file under
the same key having observed v20200102: its assert fails (second
component `false`, the worker errors), yet its record is already appended,
so the paths mapping holds records created under different observed
latest versions. -/
theorem record_entry_append_precedes_assert :
    (recordEntry ((recordEntry [] "proj/dset" ⟨"s1", "d1", false⟩
        "v20200101").1) "proj/dset" ⟨"s2", "d2", false⟩ "v20200102").2 =
      false ∧
    lookupEntry ((recordEntry ((recordEntry [] "proj/dset"
        ⟨"s1", "d1", false⟩ "v20200101").1) "proj/dset"
        ⟨"s2", "d2", false⟩ "v20200102").1) "proj/dset" =
      some { files := [⟨"s1", "d1", false⟩, ⟨"s2", "d2", false⟩],
             latest := "v20200101" } := by
  constructor
  · decide
  · decide

/-- C10 (amended): recording under an existing key always appends the
record (even when the observed latest version disagrees with the stored
one), and the assert of make.py line 264 passes exactly when the observed
latest version equals the stored one — so a disagreeing second file fails
its processing, but its record remains in the mapping. -/
theorem record_entry_assert_iff (paths : List (String × DsetEntry))
    (key : String) (record : MakeRecord) (lv : String) (e : DsetEntry)
    (h : lookupEntry paths key = some e) :
    lookupEntry (recordEntry paths key record lv).1 key =
      some { files := e.files ++ [record], latest := e.latest } ∧
    ((recordEntry paths key record lv).2 = true ↔ lv = e.latest) := by
  constructor
  · simp [recordEntry, h]
    exact lookupEntry_updateEntry paths key e _ h
  · simp [recordEntry, h]

/-- A one-record dataset entry observed under latest version v20200101. -/
def dsetEntryExample : DsetEntry :=
  { files := [⟨"s1", "d1", false⟩], latest := "v20200101" }

/-- C10 witness: the amended statement at a concrete one-entry mapping:
an agreeing second record keeps the assert true, and the appended list is
visible under the key. -/
theorem record_entry_assert_iff_witness :
    lookupEntry ((recordEntry [("k", dsetEntryExample)] "k"
        ⟨"s2", "d2", false⟩ "v20200101").1) "k" =
      some { files := [⟨"s1", "d1", false⟩, ⟨"s2", "d2", false⟩],
             latest := "v20200101" } ∧
    (recordEntry [("k", dsetEntryExample)] "k" ⟨"s2", "d2", false⟩
        "v20200101").2 = true := by
  have h := record_entry_assert_iff [("k", dsetEntryExample)] "k"
    ⟨"s2", "d2", false⟩ "v20200101" dsetEntryExample (by decide)
  exact ⟨h.1, h.2.mpr rfl⟩
